import Mathlib

/-!
# CalorieFlow — shallow embedding and verification

Shallow embedding of the core of the CalorieFlow application (a React
single-user calorie tracker).  The embedded program parts are:

* the domain model (`Gender`, `GoalType`, `UserProfile`, `FoodItem`,
  `DailyLog`, the date-keyed logs mapping) from `src/types/types.ts`,
* the metrics engine `calculateTDEE` (current app, goal offset 1000, and
  the legacy copy embedded in `types.ts`, goal offset 500),
* the log mutators `handleAddFood` / `handleDeleteFood`,
* the export / import normalizer `handleExportData` / `handleFileChange`
  together with its helper `safeNum`.

Modelling conventions:

* JavaScript numbers are modelled as rationals `ℚ`; the source performs
  only `+`, `-`, `*` and `Math.round` on values well inside the range in
  which double arithmetic is exact enough that rounding results agree,
  and the specification itself states all formulas in exact arithmetic.
  `Math.round` (round to nearest, ties towards +∞) is `jsRound`.
* At the untrusted import boundary the result of the JavaScript
  coercion `Number(x)` can be `NaN`; this is made explicit by the type
  `JsNum` (`nan` or a finite rational).  Fields of the untrusted
  document are modelled as the value of the single coercion the code
  applies to them (`Number(...)` for numeric fields, `String(...)` for
  `gender` / `goalType`, the raw optional string for `name`).
* The interface fields `streak`, `lastLogTimestamp`, `waterGoal` of
  `UserProfile` and `waterIntake` of `DailyLog` are never read or
  written by the application code in `src/unnamed/part_000` (its log
  literals and `INITIAL_USER` omit them), so they are omitted from the
  embedding; `weightRecorded` is kept because `handleWeightUpdate`
  writes it.
* The logs mapping (`Record<string, DailyLog>`) is an association list
  with JavaScript object-spread update semantics: `setLog` replaces the
  first binding of an existing key in place and appends a new key.
* Timestamp strings (`new Date().toISOString()`) are passed in as
  explicit `String` parameters; no claim depends on their value.
-/

namespace CalorieFlow

/-- JS `Math.round`: nearest integer, ties rounded towards `+∞`. -/
def jsRound (q : ℚ) : ℤ := ⌊q + 1/2⌋

/-- `enum Gender { MALE = 'male', FEMALE = 'female' }`. -/
inductive Gender where
  | male : Gender
  | female : Gender
deriving DecidableEq, Repr

/-- The string value of a `Gender` enum member (its JSON serialization). -/
def Gender.toStr : Gender → String
  | .male => "male"
  | .female => "female"

/-- `enum GoalType { LOSE_WEIGHT = 'lose', MAINTAIN = 'maintain', GAIN_WEIGHT = 'gain' }`. -/
inductive GoalType where
  | lose : GoalType
  | maintain : GoalType
  | gain : GoalType
deriving DecidableEq, Repr

/-- The string value of a `GoalType` enum member (its JSON serialization). -/
def GoalType.toStr : GoalType → String
  | .lose => "lose"
  | .maintain => "maintain"
  | .gain => "gain"

/-- `validGoals.includes(goal) ? (goal as GoalType) : ...`: recover the enum
member from a string, `none` when the string is not one of the three enum
values (`Object.values(GoalType)`). -/
def goalOfStr : String → Option GoalType
  | "lose" => some GoalType.lose
  | "maintain" => some GoalType.maintain
  | "gain" => some GoalType.gain
  | _ => none

/-- `interface UserProfile` restricted to the fields the application reads or
writes (see the module docstring); numbers are `ℚ`, `manualTDEE?` is
`Option ℚ`. -/
structure UserProfile where
  name : String
  gender : Gender
  age : ℚ
  height : ℚ
  currentWeight : ℚ
  targetWeight : ℚ
  activityLevel : ℚ
  goalType : GoalType
  manualTDEE : Option ℚ := none
  updatedAt : String
deriving DecidableEq, Repr

/-- `interface FoodItem`. -/
structure FoodItem where
  id : String
  name : String
  calories : ℤ
  timestamp : String
deriving DecidableEq, Repr

/-- `interface DailyLog` restricted to the fields the application uses. -/
structure DailyLog where
  date : String
  foods : List FoodItem
  totalCalories : ℤ
  weightRecorded : Option ℚ := none
deriving DecidableEq, Repr

/-- `const INITIAL_USER: UserProfile` (the `updatedAt` timestamp is
environment-dependent and modelled as the empty string; no claim
depends on it). -/
def INITIAL_USER : UserProfile :=
  { name := "Guest"
    gender := Gender.male
    age := 25
    height := 170
    currentWeight := 70
    targetWeight := 65
    activityLevel := 6/5          -- ActivityLevel.SEDENTARY = 1.2
    goalType := GoalType.lose
    manualTDEE := none
    updatedAt := "" }

/-- The Mifflin–St Jeor branch of `calculateTDEE` (lines 64–80 of
`src/unnamed/part_000`), parameterized by the goal-adjustment literal
`off` hardcoded in the `switch` (`1000` in the current app, `500` in
the legacy copy): BMR by gender, times activity level, goal adjustment,
`Math.round`. -/
def tdeeFormulaBranch (off : ℚ) (user : UserProfile) : ℚ :=
  let bmr : ℚ :=
    if user.gender = Gender.male then
      10 * user.currentWeight + 6.25 * user.height - 5 * user.age + 5
    else
      10 * user.currentWeight + 6.25 * user.height - 5 * user.age - 161
  let tdee := bmr * user.activityLevel
  match user.goalType with
  | GoalType.lose => (jsRound (tdee - off) : ℚ)
  | GoalType.gain => (jsRound (tdee + off) : ℚ)
  | GoalType.maintain => (jsRound tdee : ℚ)

/-- `calculateTDEE` from `src/unnamed/part_000` (the current app).  The JS
guard `user.manualTDEE && user.manualTDEE > 0` is truthy exactly when the
field is present with a value `> 0` (absent ↦ `undefined` falsy, `0` falsy,
negative values fail `> 0`); the formula branch hardcodes `1000`. -/
def calculateTDEE (user : UserProfile) : ℚ :=
  match user.manualTDEE with
  | some t => if 0 < t then t else tdeeFormulaBranch 1000 user
  | none => tdeeFormulaBranch 1000 user

/-- `calculateTDEE` from the legacy app copy embedded in
`src/src/types/types.ts` (lines 105–130): identical except the goal
adjustment literal is 500 kcal. -/
def calculateTDEE_legacy (user : UserProfile) : ℚ :=
  match user.manualTDEE with
  | some t => if 0 < t then t else tdeeFormulaBranch 500 user
  | none => tdeeFormulaBranch 500 user

/-- The profile has no effective manual override: `manualTDEE` is unset or
not greater than `0` (the spec: unset or not greater than 0). -/
def noManualTDEE (user : UserProfile) : Prop :=
  user.manualTDEE = none ∨ ∃ t, user.manualTDEE = some t ∧ ¬ 0 < t

/-- Spec-side BMR, written from the claim's words: Mifflin–St Jeor,
`+ 5` for male, `- 161` for female. -/
def specBMR (p : UserProfile) : ℚ :=
  if p.gender = Gender.male then
    10 * p.currentWeight + 6.25 * p.height - 5 * p.age + 5
  else
    10 * p.currentWeight + 6.25 * p.height - 5 * p.age - 161

/-- Spec-side goal adjustment with offset constant `C`: `-C` for lose,
`+C` for gain, `0` for maintain (written from the claim's words). -/
def specGoalAdj (g : GoalType) (C : ℚ) : ℚ :=
  match g with
  | GoalType.lose => -C
  | GoalType.gain => C
  | GoalType.maintain => 0

/-- Spec-side daily target with offset constant `C`:
`round(BMR * activityLevel + adj)` (written from the claim's words). -/
def specTarget (p : UserProfile) (C : ℚ) : ℚ :=
  (jsRound (specBMR p * p.activityLevel + specGoalAdj p.goalType C) : ℚ)

/-- The example profile of the spec's TDEE test: male, age 25, height 170,
weight 70, sedentary (1.2), goal lose, no manual override. -/
def exampleProfile : UserProfile :=
  { name := "Guest"
    gender := Gender.male
    age := 25
    height := 170
    currentWeight := 70
    targetWeight := 65
    activityLevel := 6/5
    goalType := GoalType.lose
    manualTDEE := none
    updatedAt := "" }

/-! ## Logs mapping and the log mutators -/

/-- `Record<string, DailyLog>` as an association list from date string to
`DailyLog`, in JS object key-enumeration order. -/
abbrev Logs : Type := List (String × DailyLog)

/-- Property lookup `logs[date]`: the value of the first binding of
`date`, `undefined` (`none`) when absent. -/
def lookupLog : Logs → String → Option DailyLog
  | [], _ => none
  | (k, v) :: rest, d => if k = d then some v else lookupLog rest d

/-- Object spread update `{ ...prev, [date]: log }`: the first binding of
an existing key is replaced in place, a fresh key is appended (JS key
enumeration order). -/
def setLog : Logs → String → DailyLog → Logs
  | [], d, l => [(d, l)]
  | (k, v) :: rest, d, l =>
      if k = d then (k, l) :: rest else (k, v) :: setLog rest d l

/-- `foods.reduce((sum, f) => sum + f.calories, 0)`. -/
def sumCalories (fs : List FoodItem) : ℤ :=
  fs.foldl (fun s f => s + f.calories) 0

/-- The empty default log `{ date: today, foods: [], totalCalories: 0 }`
materialized by `prev[today] || { ... }`. -/
def emptyLog (today : String) : DailyLog :=
  { date := today, foods := [], totalCalories := 0, weightRecorded := none }

/-- `handleAddFood` (state-passing form of its `setLogs` updater,
lines 238–269 of `src/unnamed/part_000`): no-op when the food-name input
is empty (`if (!foodInput) return`); otherwise append the new entry to
today's log (created with empty defaults when absent) and increment
`totalCalories` by the entry's calories. -/
def handleAddFood (logs : Logs) (today : String) (food : FoodItem) : Logs :=
  if food.name = "" then logs
  else
    let todayLog := (lookupLog logs today).getD (emptyLog today)
    setLog logs today
      { todayLog with
        foods := todayLog.foods ++ [food]
        totalCalories := todayLog.totalCalories + food.calories }

/-- `handleDeleteFood` (state-passing form of its `setLogs` updater,
lines 271–288 of `src/unnamed/part_000`): no-op when today has no log;
otherwise filter out the entries with the given id and recompute
`totalCalories` as the full sum of the remaining entries. -/
def handleDeleteFood (logs : Logs) (today : String) (foodId : String) : Logs :=
  match lookupLog logs today with
  | none => logs
  | some todayLog =>
      let updatedFoods := todayLog.foods.filter (fun f => f.id != foodId)
      let newTotal := sumCalories updatedFoods
      setLog logs today
        { todayLog with foods := updatedFoods, totalCalories := newTotal }

/-- One Log Mutator operation of the claim's add/remove sequences. -/
inductive LogOp where
  | add : FoodItem → LogOp
  | del : String → LogOp
deriving DecidableEq, Repr

/-- Apply one `LogOp` to the logs mapping at date `today`. -/
def applyOp (today : String) (logs : Logs) : LogOp → Logs
  | LogOp.add food => handleAddFood logs today food
  | LogOp.del foodId => handleDeleteFood logs today foodId

/-- Apply a finite sequence of `LogOp`s, in order. -/
def applyOps (today : String) (logs : Logs) (ops : List LogOp) : Logs :=
  ops.foldl (applyOp today) logs

/-- The `DailyLog` aggregate invariant: `totalCalories` equals the sum of
the entries' calories. -/
def logConsistent (l : DailyLog) : Prop :=
  l.totalCalories = sumCalories l.foods

instance (l : DailyLog) : Decidable (logConsistent l) := by
  unfold logConsistent; infer_instance

/-- Every log bound in the mapping satisfies the aggregate invariant. -/
def logsConsistent (logs : Logs) : Prop :=
  ∀ p ∈ logs, logConsistent (Prod.snd p)

instance (logs : Logs) : Decidable (logsConsistent logs) := by
  unfold logsConsistent
  exact List.decidableBAll _ logs

/-! ## Untrusted import boundary -/

/-- The result of the JavaScript coercion `Number(x)` on an untrusted
value: `NaN`, or a finite rational (infinities are not produced by any
input considered here). -/
inductive JsNum where
  | nan : JsNum
  | fin : ℚ → JsNum
deriving DecidableEq, Repr

/-- `isNaN(n)` on a coerced number. -/
def jsIsNaN : JsNum → Bool
  | JsNum.nan => true
  | JsNum.fin _ => false

/-- `n === 0` on a coerced number (`NaN === 0` is false). -/
def jsEqZero : JsNum → Bool
  | JsNum.nan => false
  | JsNum.fin q => q == 0

/-- The rational value of a coerced number known not to be `NaN`
(`safeNum` never returns `NaN`; the `nan` case is arbitrary). -/
def JsNum.toRat : JsNum → ℚ
  | JsNum.nan => 0
  | JsNum.fin q => q

/-- JS `String.prototype.toLowerCase()` on the ASCII strings relevant
here: lower-case every character. -/
def jsToLowerCase (s : String) : String :=
  String.mk (s.data.map Char.toLower)

/-- `safeNum` (lines 365–368 of `src/unnamed/part_000`):
`const n = Number(val); return n === 0 || !isNaN(n) ? n : fallback`.
`val` is modelled post-`Number(...)` as a `JsNum`. -/
def safeNum (val : JsNum) (fallback : ℚ) : JsNum :=
  let n := val
  if jsEqZero n || !(jsIsNaN n) then n else JsNum.fin fallback

/-- The untrusted `data.user` object, each field modelled as the value of
the single JS coercion the normalizer applies to it: `name` as the raw
optional string (`none` = absent), `gender` and `goalType` as
`String(x)`, the numeric fields and `manualTDEE` as `Number(x)`. -/
structure ImportedUser where
  name : Option String
  gender : String
  goalType : String
  currentWeight : JsNum
  targetWeight : JsNum
  height : JsNum
  age : JsNum
  activityLevel : JsNum
  manualTDEE : JsNum
deriving DecidableEq, Repr

/-- The confirmed-import profile construction (lines 364–401 of
`src/unnamed/part_000`): spread of `INITIAL_USER` then explicit field
overrides — `name` with falsy fallback, the five numeric fields through
`safeNum`, gender lower-cased with the string female ↦ female else
male, goal
accepted only when among the enum values else `lose`, `manualTDEE` kept
only when `Number(...) > 0` (false for `NaN`), `updatedAt` stamped
fresh. -/
def normalizeImport (iu : ImportedUser) (now : String) : UserProfile :=
  { name :=
      match iu.name with
      | some s => if s = "" then INITIAL_USER.name else s
      | none => INITIAL_USER.name
    gender :=
      if jsToLowerCase iu.gender = "female" then Gender.female
      else Gender.male
    age := (safeNum iu.age INITIAL_USER.age).toRat
    height := (safeNum iu.height INITIAL_USER.height).toRat
    currentWeight :=
      (safeNum iu.currentWeight INITIAL_USER.currentWeight).toRat
    targetWeight :=
      (safeNum iu.targetWeight INITIAL_USER.targetWeight).toRat
    activityLevel :=
      (safeNum iu.activityLevel INITIAL_USER.activityLevel).toRat
    goalType := (goalOfStr iu.goalType).getD GoalType.lose
    manualTDEE :=
      match iu.manualTDEE with
      | JsNum.fin t => if 0 < t then some t else none
      | JsNum.nan => none
    updatedAt := now }

/-- A parsed backup document, keeping only the top-level fields the code
reads; `none` models an absent (falsy) field. -/
structure BackupDoc where
  user : Option ImportedUser
  logs : Option Logs
  version : String
  exportedAt : String
deriving DecidableEq, Repr

/-- How a serialized `UserProfile` reads back through the import
coercions (`JSON.stringify` then `JSON.parse` then the per-field
coercions): strings verbatim, enum members as their string values,
numbers as themselves, an absent `manualTDEE` (dropped by
`JSON.stringify`) as `Number(undefined) = NaN`. -/
def profileToImported (p : UserProfile) : ImportedUser :=
  { name := some p.name
    gender := p.gender.toStr
    goalType := p.goalType.toStr
    currentWeight := JsNum.fin p.currentWeight
    targetWeight := JsNum.fin p.targetWeight
    height := JsNum.fin p.height
    age := JsNum.fin p.age
    activityLevel := JsNum.fin p.activityLevel
    manualTDEE :=
      match p.manualTDEE with
      | some t => JsNum.fin t
      | none => JsNum.nan }

/-- `handleExportData`'s document (lines 313–319 of
`src/unnamed/part_000`): the current profile and logs verbatim, the
1.0 version tag, a fresh `exportedAt`; the `user` field is recorded as
the importing reader will see it, via `profileToImported`. -/
def exportData (p : UserProfile) (logs : Logs) (exportedAt : String) :
    BackupDoc :=
  { user := some (profileToImported p)
    logs := some logs
    version := "1.0"
    exportedAt := exportedAt }

/-- The in-memory application state the import path mutates. -/
structure AppState where
  user : UserProfile
  logs : Logs
deriving DecidableEq, Repr

/-- The user-visible outcome of one import attempt.  `silentAbort` is
the outcome of the early `return`: the callback ends without showing
any modal. -/
inductive ImportOutcome where
  | silentAbort : ImportOutcome
  | parseError : ImportOutcome
  | formatError : ImportOutcome
  | cancelled : ImportOutcome
  | imported : ImportOutcome
deriving DecidableEq, Repr

/-- The text handed to the reader callback, classified by the two
checks the code runs on it in order: `emptyContent` is falsy content
(the empty string, on which `if (!content) return` fires before any
parsing), `invalid` is non-empty text on which `JSON.parse` throws, and
`parsed` is non-empty text parsing to a document. -/
inductive RawImport where
  | emptyContent : RawImport
  | invalid : RawImport
  | parsed : BackupDoc → RawImport
deriving DecidableEq, Repr

/-- `handleFileChange`'s reader callback (lines 345–425 of
`src/unnamed/part_000`), state-passing form.  Falsy content hits
`if (!content) return` (line 348) and aborts silently, before parsing;
text that `JSON.parse` rejects lands in the catch, which shows an error
modal; with a parsed document, `if (data.user && data.logs)` gates on
both fields, a missing one shows the format-error modal; otherwise the
confirmation modal's `onConfirm` (taken iff `confirmed`) installs the
normalized profile and the document's logs wholesale. -/
def handleFileChange (st : AppState) (raw : RawImport)
    (confirmed : Bool) (now : String) : AppState × ImportOutcome :=
  match raw with
  | RawImport.emptyContent => (st, ImportOutcome.silentAbort)
  | RawImport.invalid => (st, ImportOutcome.parseError)
  | RawImport.parsed data =>
      match data.user, data.logs with
      | some iu, some newLogs =>
          if confirmed then
            ({ user := normalizeImport iu now, logs := newLogs },
              ImportOutcome.imported)
          else (st, ImportOutcome.cancelled)
      | _, _ => (st, ImportOutcome.formatError)

/-! ## Spec-side helpers and concrete inputs for the claims -/

/-- The claim's description of `safeNum`: return the fallback exactly when
`Number(val)` is `NaN`, and `Number(val)` otherwise. -/
def safeNumSpec (val : JsNum) (fallback : ℚ) : JsNum :=
  if jsIsNaN val then JsNum.fin fallback else val

/-- The claim's per-field numeric-override rule, extensionally: keep the
parsed number unless it is `NaN`, in which case fall back to the
default. -/
def specKeep (v : JsNum) (d : ℚ) : ℚ :=
  match v with
  | JsNum.nan => d
  | JsNum.fin q => q

/-- An imported user whose `currentWeight` was the string abc, on
which the Number coercion yields `NaN`. -/
def abcWeightUser : ImportedUser :=
  { name := some "Alice"
    gender := "female"
    goalType := "maintain"
    currentWeight := JsNum.nan
    targetWeight := JsNum.fin 60
    height := JsNum.fin 165
    age := JsNum.fin 30
    activityLevel := JsNum.fin (11/8)
    manualTDEE := JsNum.nan }

/-- An imported user whose `age` field is the number `0`. -/
def zeroAgeUser : ImportedUser :=
  { name := some "Bob"
    gender := "male"
    goalType := "gain"
    currentWeight := JsNum.fin 70
    targetWeight := JsNum.fin 75
    height := JsNum.fin 180
    age := JsNum.fin 0
    activityLevel := JsNum.fin (6/5)
    manualTDEE := JsNum.nan }

/-- An imported user whose `manualTDEE` field is the non-integer number
`1800.5`; import normalization keeps it since `1800.5 > 0`. -/
def fracTdeeUser : ImportedUser :=
  { name := some "Carol"
    gender := "male"
    goalType := "lose"
    currentWeight := JsNum.fin 70
    targetWeight := JsNum.fin 65
    height := JsNum.fin 170
    age := JsNum.fin 25
    activityLevel := JsNum.fin (6/5)
    manualTDEE := JsNum.fin (3601/2) }

/-- A profile with every field away from the defaults and
`manualTDEE = 1800`. -/
def overrideProfile : UserProfile :=
  { name := "Dana"
    gender := Gender.female
    age := 41
    height := 158
    currentWeight := 84
    targetWeight := 78
    activityLevel := 19/10
    goalType := GoalType.gain
    manualTDEE := some 1800
    updatedAt := "2024-01-01T00:00:00.000Z" }

/-! ## Helper lemmas -/

theorem safeNum_toRat (v : JsNum) (d : ℚ) :
    (safeNum v d).toRat = specKeep v d := by
  cases v <;> simp [safeNum, safeNumSpec, jsIsNaN, jsEqZero, JsNum.toRat,
    specKeep]

theorem tdeeFormulaBranch_eq_specTarget (off : ℚ) (p : UserProfile) :
    tdeeFormulaBranch off p = specTarget p off := by
  unfold tdeeFormulaBranch specTarget specBMR specGoalAdj
  cases p.goalType <;> simp [sub_eq_add_neg]

/-- A rational that is an integer number of kcal. -/
def intKcal (q : ℚ) : Prop := ∃ z : ℤ, q = (z : ℚ)

theorem tdeeFormulaBranch_intKcal (off : ℚ) (p : UserProfile) :
    intKcal (tdeeFormulaBranch off p) := by
  unfold tdeeFormulaBranch
  cases p.goalType <;> exact ⟨_, rfl⟩

theorem calculateTDEE_eq_manual (p : UserProfile) (t : ℚ)
    (hm : p.manualTDEE = some t) (ht : 0 < t) : calculateTDEE p = t := by
  simp [calculateTDEE, hm, ht]

/-! ## Claims about the metrics engine -/

/-- **C2, counterexample.** The claim's particular instance is wrong
arithmetic: for male, age 25, height 170, weight 70, activity 1.2, goal
lose, the BMR is `10·70 + 6.25·170 − 5·25 + 5 = 1642.5` (not the
claimed 1591.5), so the base TDEE is `1642.5 · 1.2 = 1971.0` (not
1909.8) and the current app returns `round(1971 − 1000) = 971`, while
the claim predicts `round(1909.8 − 1000) = 910`; the legacy copy
likewise returns `1471`, not `round(1909.8 − 500) = 1410`. -/
theorem calculateTDEE_example_not_1909 :
    calculateTDEE exampleProfile = 971 ∧
    (jsRound ((19098 : ℚ)/10 - 1000) : ℚ) = 910 ∧
    (971 : ℚ) ≠ 910 ∧
    calculateTDEE_legacy exampleProfile = 1471 ∧
    (jsRound ((19098 : ℚ)/10 - 500) : ℚ) = 1410 ∧
    (1471 : ℚ) ≠ 1410 := by
  refine ⟨?_, ?_, by norm_num, ?_, ?_, by norm_num⟩ <;>
    norm_num [calculateTDEE, calculateTDEE_legacy, tdeeFormulaBranch,
      jsRound, exampleProfile]

/-- **C2, amended.** For every profile with no effective manual
override, `calculateTDEE` returns `round(BMR · activityLevel + adj)`
with the Mifflin–St Jeor BMR and adjustment `-C` / `+C` / `0` for
lose / gain / maintain, for a single offset constant `C` per
implementation: `C = 1000` in the current app, `C = 500` in the legacy
copy in `types.ts`; for the example profile the correctly computed base
is `1642.5 · 1.2 = 1971.0`, so the result is `round(1971 − C)`. -/
theorem calculateTDEE_formula_correct :
    (∀ p : UserProfile, noManualTDEE p → calculateTDEE p = specTarget p 1000)
    ∧ (∀ p : UserProfile, noManualTDEE p →
        calculateTDEE_legacy p = specTarget p 500) := by
  constructor
  · intro p hp
    rcases hp with h | ⟨t, ht, hle⟩
    · simp [calculateTDEE, h, tdeeFormulaBranch_eq_specTarget]
    · simp [calculateTDEE, ht, hle, tdeeFormulaBranch_eq_specTarget]
  · intro p hp
    rcases hp with h | ⟨t, ht, hle⟩
    · simp [calculateTDEE_legacy, h, tdeeFormulaBranch_eq_specTarget]
    · simp [calculateTDEE_legacy, ht, hle, tdeeFormulaBranch_eq_specTarget]

/-- Witness for the amended C2 at the example profile (male, 25,
170 cm, 70 kg, sedentary, goal lose): the base is `1642.5 · 1.2 =
1971.0`, so the current app returns `round(1971 − 1000) = 971` and the
legacy copy `round(1971 − 500) = 1471`. -/
theorem calculateTDEE_formula_correct_witness :
    noManualTDEE exampleProfile ∧
    calculateTDEE exampleProfile = specTarget exampleProfile 1000 ∧
    specTarget exampleProfile 1000 = 971 ∧
    calculateTDEE_legacy exampleProfile = specTarget exampleProfile 500 ∧
    specTarget exampleProfile 500 = 1471 :=
  ⟨Or.inl rfl,
    calculateTDEE_formula_correct.1 exampleProfile (Or.inl rfl),
    by norm_num [specTarget, specBMR, specGoalAdj, jsRound, exampleProfile],
    calculateTDEE_formula_correct.2 exampleProfile (Or.inl rfl),
    by norm_num [specTarget, specBMR, specGoalAdj, jsRound, exampleProfile]⟩

/-- **C3.** When `manualTDEE` is set and strictly positive,
`calculateTDEE` returns it unchanged regardless of every other
profile field. -/
theorem calculateTDEE_manual_override (p : UserProfile) (t : ℚ)
    (hm : p.manualTDEE = some t) (ht : 0 < t) : calculateTDEE p = t :=
  calculateTDEE_eq_manual p t hm ht

/-- Witness for C3: a profile with all fields away from the defaults and
`manualTDEE = 1800` yields exactly 1800. -/
theorem calculateTDEE_manual_override_witness :
    calculateTDEE overrideProfile = 1800 :=
  calculateTDEE_manual_override overrideProfile 1800 rfl (by norm_num)

/-- **C9, counterexample.** Import normalization keeps the positive
non-integer `manualTDEE = 1800.5` (`3601/2`), and `calculateTDEE` on the
resulting profile returns `3601/2` — not an integer number of kcal,
refuting the claim that it returns an integer for every profile the
core can hold, including every profile produced by the normalization
of an imported document. -/
theorem calculateTDEE_fractional_on_imported_profile :
    (normalizeImport fracTdeeUser "t").manualTDEE = some (3601/2) ∧
    calculateTDEE (normalizeImport fracTdeeUser "t") = 3601/2 ∧
    ¬ intKcal (calculateTDEE (normalizeImport fracTdeeUser "t")) := by
  have hm : (normalizeImport fracTdeeUser "t").manualTDEE
      = some (3601/2) := by
    simp [normalizeImport, fracTdeeUser]
  have hc : calculateTDEE (normalizeImport fracTdeeUser "t") = 3601/2 :=
    calculateTDEE_eq_manual _ (3601/2) hm (by norm_num)
  refine ⟨hm, hc, ?_⟩
  rintro ⟨z, hz⟩
  rw [hc] at hz
  have h2 : (3601 : ℤ) = 2 * z := by
    have : (3601 : ℚ) = 2 * (z : ℚ) := by linarith
    exact_mod_cast this
  omega

/-- **C9, amended.** `calculateTDEE` returns an integer number of kcal
for every profile whose `manualTDEE`, when set and strictly positive, is
itself an integer — in particular whenever it is unset or not greater
than zero; a positive non-integer `manualTDEE` (producible by import
normalization) is instead returned unchanged, making the output
non-integer. -/
theorem calculateTDEE_integer_output (p : UserProfile)
    (h : ∀ t, p.manualTDEE = some t → 0 < t → intKcal t) :
    intKcal (calculateTDEE p) := by
  unfold calculateTDEE
  cases hm : p.manualTDEE with
  | none => exact tdeeFormulaBranch_intKcal 1000 p
  | some t =>
      by_cases ht : 0 < t
      · simpa [ht] using h t hm ht
      · simpa [ht] using tdeeFormulaBranch_intKcal 1000 p

/-- Witness for the amended C9 at the default profile (no manual
override). -/
theorem calculateTDEE_integer_output_witness :
    intKcal (calculateTDEE INITIAL_USER) :=
  calculateTDEE_integer_output INITIAL_USER
    (fun _ ht _ => Option.noConfusion ht)

/-! ## Claims about the import normalizer's numeric handling -/

/-- **C10.** `safeNum` refines the claim's description: it returns the
fallback exactly when `Number(val)` is `NaN` and the parsed number
otherwise, and its guard `n === 0 || !isNaN(n)` is equivalent to the
plain guard `!isNaN(n)` — the `n === 0` disjunct is redundant since `0`
is not `NaN`. -/
theorem safeNum_refines_plain_guard :
    (∀ (v : JsNum) (d : ℚ), safeNum v d = safeNumSpec v d) ∧
    (∀ n : JsNum, (jsEqZero n || !(jsIsNaN n)) = !(jsIsNaN n)) := by
  constructor
  · intro v d
    cases v <;> simp [safeNum, safeNumSpec, jsIsNaN, jsEqZero]
  · intro n
    cases n <;> simp [jsIsNaN, jsEqZero]

/-- **C4.** For each of the five numeric profile fields, import
normalization keeps the parsed number whenever it is a (non-`NaN`)
number — including exactly zero — and falls back to the default
otherwise; in particular a `currentWeight` read from the string abc
(`NaN`) yields the default `70`
(not `NaN`, not zero) and `age = 0` yields `0`, not the default. -/
theorem normalizeImport_numeric_fields :
    (∀ (iu : ImportedUser) (now : String),
      (normalizeImport iu now).currentWeight
          = specKeep iu.currentWeight INITIAL_USER.currentWeight ∧
      (normalizeImport iu now).targetWeight
          = specKeep iu.targetWeight INITIAL_USER.targetWeight ∧
      (normalizeImport iu now).height
          = specKeep iu.height INITIAL_USER.height ∧
      (normalizeImport iu now).age
          = specKeep iu.age INITIAL_USER.age ∧
      (normalizeImport iu now).activityLevel
          = specKeep iu.activityLevel INITIAL_USER.activityLevel) ∧
    (normalizeImport abcWeightUser "t").currentWeight
        = INITIAL_USER.currentWeight ∧
    INITIAL_USER.currentWeight = 70 ∧
    (normalizeImport zeroAgeUser "t").age = 0 ∧
    INITIAL_USER.age = 25 := by
  refine ⟨fun iu now => ?_, by decide, by decide, by decide, by decide⟩
  exact ⟨safeNum_toRat _ _, safeNum_toRat _ _, safeNum_toRat _ _,
    safeNum_toRat _ _, safeNum_toRat _ _⟩

/-! ## Lemmas about the logs mapping -/

theorem lookupLog_setLog_self (logs : Logs) (d : String) (l : DailyLog) :
    lookupLog (setLog logs d l) d = some l := by
  induction logs with
  | nil => simp [setLog, lookupLog]
  | cons q rest ih =>
      obtain ⟨k, v⟩ := q
      by_cases hk : k = d
      · simp [setLog, lookupLog, hk]
      · simp [setLog, lookupLog, hk, ih]

theorem mem_setLog (logs : Logs) (d : String) (l : DailyLog)
    (p : String × DailyLog) (hp : p ∈ setLog logs d l) :
    p ∈ logs ∨ p = (d, l) := by
  induction logs with
  | nil =>
      simp [setLog] at hp
      exact Or.inr hp
  | cons q rest ih =>
      obtain ⟨k, v⟩ := q
      by_cases hk : k = d
      · simp [setLog, hk] at hp
        rcases hp with h | h
        · exact Or.inr (by simp [h, hk])
        · exact Or.inl (List.mem_cons_of_mem _ h)
      · simp [setLog, hk] at hp
        rcases hp with h | h
        · exact Or.inl (by simp [h])
        · rcases ih h with h1 | h1
          · exact Or.inl (List.mem_cons_of_mem _ h1)
          · exact Or.inr h1

theorem lookupLog_mem (logs : Logs) (d : String) (l : DailyLog)
    (h : lookupLog logs d = some l) : (d, l) ∈ logs := by
  induction logs with
  | nil => simp [lookupLog] at h
  | cons q rest ih =>
      obtain ⟨k, v⟩ := q
      by_cases hk : k = d
      · simp [lookupLog, hk] at h
        simp [← hk, h]
      · simp [lookupLog, hk] at h
        exact List.mem_cons_of_mem _ (ih h)

theorem sumCalories_append (xs : List FoodItem) (f : FoodItem) :
    sumCalories (xs ++ [f]) = sumCalories xs + f.calories := by
  simp [sumCalories, List.foldl_append]

theorem logsConsistent_setLog (logs : Logs) (d : String) (l : DailyLog)
    (hlogs : logsConsistent logs) (hl : logConsistent l) :
    logsConsistent (setLog logs d l) := by
  intro p hp
  rcases mem_setLog logs d l p hp with h | h
  · exact hlogs p h
  · rw [h]; exact hl

theorem handleAddFood_consistent (logs : Logs) (today : String)
    (f : FoodItem) (h : logsConsistent logs) :
    logsConsistent (handleAddFood logs today f) := by
  unfold handleAddFood
  by_cases hn : f.name = ""
  · simpa [hn] using h
  · simp only [hn, if_false]
    cases hl : lookupLog logs today with
    | none =>
        refine logsConsistent_setLog _ _ _ h ?_
        simp [hl, logConsistent, emptyLog, sumCalories]
    | some l =>
        refine logsConsistent_setLog _ _ _ h ?_
        have hc : logConsistent l := h (today, l) (lookupLog_mem _ _ _ hl)
        simp only [hl, Option.getD_some, logConsistent] at hc ⊢
        rw [sumCalories_append, hc]

theorem handleDeleteFood_consistent (logs : Logs) (today foodId : String)
    (h : logsConsistent logs) :
    logsConsistent (handleDeleteFood logs today foodId) := by
  unfold handleDeleteFood
  cases hl : lookupLog logs today with
  | none => exact h
  | some l =>
      refine logsConsistent_setLog _ _ _ h ?_
      simp [logConsistent]

/-! ## Claims about the log mutators -/

/-- **C1.** Starting from any logs mapping in which every log's
`totalCalories` equals the sum of its entries' calories (the empty
mapping in particular), every finite sequence of `handleAddFood` /
`handleDeleteFood` operations preserves that invariant, so it holds
after every operation of the sequence. -/
theorem totalCalories_invariant (today : String) (logs : Logs)
    (ops : List LogOp) (h : logsConsistent logs) :
    logsConsistent (applyOps today logs ops) := by
  induction ops generalizing logs with
  | nil => simpa [applyOps] using h
  | cons op rest ih =>
      have hstep : logsConsistent (applyOp today logs op) := by
        cases op with
        | add f => exact handleAddFood_consistent logs today f h
        | del fid => exact handleDeleteFood_consistent logs today fid h
      simpa [applyOps] using ih (applyOp today logs op) hstep

/-- The 300 kcal entry of the spec's scenario. -/
def food300 : FoodItem :=
  { id := "1", name := "rice", calories := 300, timestamp := "t1" }

/-- The 450 kcal entry of the spec's scenario. -/
def food450 : FoodItem :=
  { id := "2", name := "noodles", calories := 450, timestamp := "t2" }

/-- Witness for C1: starting from the empty mapping, after adding the
scenario's two entries and deleting one, every log still satisfies the
invariant. -/
theorem totalCalories_invariant_witness :
    logsConsistent (applyOps "2026-02-03" []
      [LogOp.add food300, LogOp.add food450, LogOp.del "1"]) :=
  totalCalories_invariant "2026-02-03" []
    [LogOp.add food300, LogOp.add food450, LogOp.del "1"]
    (fun p hp => absurd hp (List.not_mem_nil p))

/-- **C7.** `handleDeleteFood` is a no-op when the date has no log;
otherwise today's log in the result keeps, in order, exactly the
entries whose id differs from the given one, and its `totalCalories` is
recomputed as the full sum of those remaining entries. -/
theorem handleDeleteFood_correct (logs : Logs) (today foodId : String) :
    (lookupLog logs today = none →
      handleDeleteFood logs today foodId = logs) ∧
    (∀ l, lookupLog logs today = some l →
      lookupLog (handleDeleteFood logs today foodId) today =
        some { l with
          foods := l.foods.filter (fun f => f.id != foodId)
          totalCalories :=
            sumCalories (l.foods.filter (fun f => f.id != foodId)) }) := by
  constructor
  · intro h
    simp [handleDeleteFood, h]
  · intro l h
    simp [handleDeleteFood, h, lookupLog_setLog_self]

/-- Witness for C7, the spec's scenario: add 300 kcal and 450 kcal
entries to an empty mapping, delete the first by id — one entry remains
and `totalCalories = 450`. -/
theorem handleDeleteFood_correct_witness :
    lookupLog
      (handleDeleteFood
        (handleAddFood (handleAddFood [] "2026-02-03" food300)
          "2026-02-03" food450)
        "2026-02-03" "1") "2026-02-03"
      = some { date := "2026-02-03", foods := [food450],
               totalCalories := 450, weightRecorded := none } := by
  have h :=
    (handleDeleteFood_correct
      (handleAddFood (handleAddFood [] "2026-02-03" food300)
        "2026-02-03" food450)
      "2026-02-03" "1").2
      { date := "2026-02-03", foods := [food300, food450],
        totalCalories := 750, weightRecorded := none }
      (by decide)
  exact h.trans (by decide)

/-! ## Claims about the import path -/

/-- A backup document with a `user` field but no `logs` field (the
scenario of the spec where the document misses `logs`). -/
def docNoLogs : BackupDoc :=
  { user := some zeroAgeUser
    logs := none
    version := "1.0"
    exportedAt := "2026-02-03T00:00:00.000Z" }

/-- A well-formed backup document with both fields present. -/
def docFull : BackupDoc :=
  { user := some zeroAgeUser
    logs := some []
    version := "1.0"
    exportedAt := "2026-02-03T00:00:00.000Z" }

/-- The initial application state used as a concrete pre-import state. -/
def initialState : AppState := { user := INITIAL_USER, logs := [] }

/-- **C5, counterexample.** A document with a `user` field but no
`logs` field has at least one of the two fields present, yet
`handleFileChange` reports a format error (`if (data.user && data.logs)`
requires both), refuting the claimed equivalence of format error
with the document lacking both fields. -/
theorem formatError_despite_user_present :
    (handleFileChange initialState (RawImport.parsed docNoLogs) true "now").2
      = ImportOutcome.formatError ∧
    docNoLogs.user.isSome = true ∧
    (handleFileChange initialState (RawImport.parsed docNoLogs) true "now").1
      = initialState :=
  ⟨rfl, rfl, rfl⟩

/-- **C5, amended.** `handleFileChange` on a parsed document reports a
format error iff the document lacks the `user` field or lacks the
`logs` field; when both are present no format error is reported and,
on confirmation, the new Profile is the layered normalization
`normalizeImport` of the document's user and the logs are installed
wholesale. -/
theorem formatError_iff_missing_field (st : AppState) (doc : BackupDoc)
    (confirmed : Bool) (now : String) :
    ((handleFileChange st (RawImport.parsed doc) confirmed now).2
        = ImportOutcome.formatError
      ↔ doc.user = none ∨ doc.logs = none) ∧
    (∀ iu newLogs, doc.user = some iu → doc.logs = some newLogs →
      handleFileChange st (RawImport.parsed doc) confirmed now
        = if confirmed then
            ({ user := normalizeImport iu now, logs := newLogs },
              ImportOutcome.imported)
          else (st, ImportOutcome.cancelled)) := by
  obtain ⟨u, lg, ver, ex⟩ := doc
  cases u <;> cases lg <;> cases confirmed <;>
    simp [handleFileChange]

/-- Witness for the amended C5: at a concrete document with both fields
present and confirmation accepted, the import succeeds with the
normalized profile and the document's logs. -/
theorem formatError_iff_missing_field_witness :
    handleFileChange initialState (RawImport.parsed docFull) true "now"
      = ({ user := normalizeImport zeroAgeUser "now", logs := [] },
          ImportOutcome.imported) := by
  have h := (formatError_iff_missing_field initialState docFull true
    "now").2 zeroAgeUser [] rfl rfl
  simpa using h

/-- **C6, counterexample.** Importing a file whose content is the
empty string is a failing input — the empty string is not valid JSON —
yet `if (!content) return` (line 348 of `src/unnamed/part_000`) fires
before `JSON.parse` ever runs: the callback ends silently, with neither
the parse-error nor the format-error modal, refuting the claim that
every failing import surfaces an error notification (the zero-mutation
half does hold there). -/
theorem emptyImport_fails_silently :
    (handleFileChange initialState RawImport.emptyContent true "now").1
      = initialState ∧
    (handleFileChange initialState RawImport.emptyContent true "now").2
      = ImportOutcome.silentAbort ∧
    ImportOutcome.silentAbort ≠ ImportOutcome.parseError ∧
    ImportOutcome.silentAbort ≠ ImportOutcome.formatError :=
  ⟨rfl, rfl, by decide, by decide⟩

/-- **C6, amended.** Every failing import input — empty content,
non-empty text that is not valid JSON, or a parsed document missing the
`user` or the `logs` field — leaves the application state exactly as it
was (all-or-nothing import); an error notification is surfaced in the
parse-error and format-error cases, while empty content aborts silently
with no notification. -/
theorem noMutation_on_failed_import (st : AppState) (raw : RawImport)
    (confirmed : Bool) (now : String)
    (h : raw = RawImport.emptyContent ∨ raw = RawImport.invalid ∨
      ∃ d, raw = RawImport.parsed d ∧ (d.user = none ∨ d.logs = none)) :
    (handleFileChange st raw confirmed now).1 = st ∧
    (raw = RawImport.emptyContent →
      (handleFileChange st raw confirmed now).2
        = ImportOutcome.silentAbort) ∧
    (raw = RawImport.invalid →
      (handleFileChange st raw confirmed now).2
        = ImportOutcome.parseError) ∧
    (∀ d, raw = RawImport.parsed d → d.user = none ∨ d.logs = none →
      (handleFileChange st raw confirmed now).2
        = ImportOutcome.formatError) := by
  rcases h with h | h | ⟨d, hd, hcase⟩
  · subst h
    refine ⟨rfl, fun _ => rfl, ?_, ?_⟩
    · intro hc
      cases hc
    · intro d hc
      cases hc
  · subst h
    refine ⟨rfl, ?_, fun _ => rfl, ?_⟩
    · intro hc
      cases hc
    · intro d hc
      cases hc
  · subst hd
    obtain ⟨u, lg, ver, ex⟩ := d
    cases u <;> cases lg <;> simp_all [handleFileChange]

/-- Witness for the amended C6 at the spec's scenario: importing a
parsed document missing `logs` reports a format error and the state is
untouched. -/
theorem noMutation_on_failed_import_witness :
    (handleFileChange initialState (RawImport.parsed docNoLogs) true
        "now").1 = initialState ∧
    (handleFileChange initialState (RawImport.parsed docNoLogs) true
        "now").2 = ImportOutcome.formatError :=
  ⟨(noMutation_on_failed_import initialState (RawImport.parsed docNoLogs)
      true "now" (Or.inr (Or.inr ⟨docNoLogs, rfl, Or.inr rfl⟩))).1,
    (noMutation_on_failed_import initialState (RawImport.parsed docNoLogs)
      true "now" (Or.inr (Or.inr ⟨docNoLogs, rfl, Or.inr rfl⟩))).2.2.2
      docNoLogs rfl (Or.inr rfl)⟩

/-! ## Export → import round trip -/

theorem jsToLowerCase_male : jsToLowerCase "male" = "male" := by decide

theorem jsToLowerCase_female : jsToLowerCase "female" = "female" := by
  decide

theorem normalizeImport_profileToImported (p : UserProfile) (now : String)
    (hname : p.name ≠ "")
    (hman : p.manualTDEE = none ∨ ∃ t, p.manualTDEE = some t ∧ 0 < t) :
    normalizeImport (profileToImported p) now
      = { p with updatedAt := now } := by
  obtain ⟨nm, g, a, hei, cw, tw, al, gt, mt, up⟩ := p
  simp only [ne_eq] at hname
  rcases hman with hmt | ⟨t, hmt, htp⟩
  · subst hmt
    cases g <;> cases gt <;>
      simp [normalizeImport, profileToImported, safeNum, jsIsNaN,
        jsEqZero, JsNum.toRat, Gender.toStr, GoalType.toStr, goalOfStr,
        INITIAL_USER, jsToLowerCase_male, jsToLowerCase_female, hname]
  · subst hmt
    cases g <;> cases gt <;>
      simp [normalizeImport, profileToImported, safeNum, jsIsNaN,
        jsEqZero, JsNum.toRat, Gender.toStr, GoalType.toStr, goalOfStr,
        INITIAL_USER, jsToLowerCase_male, jsToLowerCase_female, hname,
        htp]

/-- **C8.** Exporting any valid in-memory state (non-empty profile
name, `manualTDEE` unset or strictly positive, any logs mapping) and
immediately importing the exported document with confirmation accepted
reproduces the same Profile — except the freshly stamped `updatedAt` —
and the identical logs mapping. -/
theorem export_import_roundtrip (p : UserProfile) (L : Logs)
    (ts now : String) (hname : p.name ≠ "")
    (hman : p.manualTDEE = none ∨ ∃ t, p.manualTDEE = some t ∧ 0 < t) :
    handleFileChange { user := p, logs := L }
        (RawImport.parsed (exportData p L ts)) true now
      = ({ user := { p with updatedAt := now }, logs := L },
          ImportOutcome.imported) := by
  simp [handleFileChange, exportData,
    normalizeImport_profileToImported p now hname hman]

/-- A one-day logs mapping used as a concrete round-trip input. -/
def scenarioLogs : Logs :=
  [("2026-02-03",
    { date := "2026-02-03", foods := [food300], totalCalories := 300,
      weightRecorded := none })]

/-- Witness for C8: round-tripping a fully populated profile (female,
manual override 1800) with a one-day logs mapping reproduces profile
and logs up to `updatedAt`. -/
theorem export_import_roundtrip_witness :
    handleFileChange { user := overrideProfile, logs := scenarioLogs }
        (RawImport.parsed (exportData overrideProfile scenarioLogs "ts")) true "now"
      = ({ user := { overrideProfile with updatedAt := "now" },
           logs := scenarioLogs },
          ImportOutcome.imported) :=
  export_import_roundtrip overrideProfile scenarioLogs "ts" "now"
    (by decide) (Or.inr ⟨1800, rfl, by norm_num⟩)

end CalorieFlow
